import Mathlib

/-!
Verification development for the FlashAPI request-dispatch core.

The definitions below are a shallow embedding of `src/router.py` and
`src/app.py`:

* `compileTokens` embeds `Route._compile_pattern`: a path template is
  turned into a sequence of literal characters and named capturing
  groups, each group carrying the character-class regex chosen by the
  source's `type_map` (`int` → one-or-more digits, `str` → non-slash,
  `float` → digits with optional fractional part, `uuid` →
  hex-and-hyphen, any other type tag → non-slash).  Literal template
  characters are embedded as exact-match tokens (the source splices
  them verbatim into the regex); character classes are read as ASCII.
* `tokMatch` is the anchored, greedy, backtracking matcher for the
  compiled token sequence — the semantics of the anchored regex
  `re.compile("^...$")` produced by the source on this fragment.
* `Route.match`, `Router.find_route`, `Router.add_route` follow the
  corresponding Python methods line by line, with the router's mutable
  `_route_cache` dict made explicit as an association list that is
  threaded through `find_route`.
-/

/-- Character-class of a capturing group, as chosen by `type_map` in
`Route._compile_pattern` (src/router.py line 33). -/
inductive CClass where
  | digits   -- `int`: one or more digits
  | nonSlash -- `str`, untyped, and unknown type tags: one or more non-slash chars
  | floatC   -- `float`: digits, optional dot, optional trailing digits
  | uuidC    -- `uuid`: one or more of hex digit / hyphen
deriving DecidableEq, Repr

/-- Does `s` consist of one-or-more digits followed by an optional dot and
trailing digits — the full-string language of the regex for `float`. -/
def floatAccepts (s : List Char) : Bool :=
  let a := s.takeWhile Char.isDigit
  let r := s.dropWhile Char.isDigit
  !a.isEmpty &&
    (match r with
     | [] => true
     | '.' :: fr => fr.all Char.isDigit
     | _ => false)

/-- Full-string acceptance of a capture-group character class. -/
def ccAccepts : CClass → List Char → Bool
  | .digits, s => !s.isEmpty && s.all Char.isDigit
  | .nonSlash, s => !s.isEmpty && s.all (fun c => c != '/')
  | .floatC, s => floatAccepts s
  | .uuidC, s => !s.isEmpty && s.all (fun c => c.isDigit || ('a' ≤ c && c ≤ 'f') || c == '-')

/-- One token of a compiled route pattern: a literal character of the
template, or a named capturing group with its character class. -/
inductive RTok where
  | lit (c : Char)
  | grp (name : String) (cls : CClass)
deriving DecidableEq, Repr

/-- The `type_map` dict of `Route._compile_pattern`: type tag → character class;
`type_map.get(param_type, r"[^/]+")` defaults to non-slash. -/
def typeMap (ty : String) : CClass :=
  if ty == "int" then .digits
  else if ty == "str" then .nonSlash
  else if ty == "float" then .floatC
  else if ty == "uuid" then .uuidC
  else .nonSlash

/-- Turn the inside of a `{...}` placeholder into its token and (for typed
placeholders) its `param_types` entry.  A typed placeholder `name:type`
records `(name, type)`; an untyped one records nothing (the source's
`param_types` only collects typed parameters). -/
def mkPlaceholder (inside : List Char) : RTok × List (String × String) :=
  if inside.contains ':' then
    let name := String.mk (inside.takeWhile (fun c => c != ':'))
    let ty := String.mk ((inside.dropWhile (fun c => c != ':')).drop 1)
    (.grp name (typeMap ty), [(name, ty)])
  else
    (.grp (String.mk inside) .nonSlash, [])

/-- Scanner underlying `compileTokens`.  The second argument is `none`
outside a placeholder and `some acc` while reading the characters of a
placeholder body. -/
def compileAux : List Char → Option (List Char) → List RTok × List (String × String)
  | [], none => ([], [])
  | [], some _ => ([], [])
  | c :: rest, none =>
    if c == '{' then compileAux rest (some [])
    else
      let (ts, ps) := compileAux rest none
      (.lit c :: ts, ps)
  | c :: rest, some acc =>
    if c == '}' then
      let (tok, pe) := mkPlaceholder acc
      let (ts, ps) := compileAux rest none
      (tok :: ts, pe ++ ps)
    else compileAux rest (some (acc ++ [c]))

/-- Embedding of `Route._compile_pattern` (src/router.py lines 21-45):
compile a path template into its token sequence and its parameter-type
map. -/
def compileTokens (path : String) : List RTok × List (String × String) :=
  compileAux path.data none

/-- Numeric value of a digit string, most significant digit first —
the value computed by Python's `int` on a digit-only string. -/
def digitsVal (s : List Char) : Nat :=
  s.foldl (fun a c => a * 10 + (c.toNat - 48)) 0

/-- Embedding of `int(value)` on the strings reachable here (captures of
the digit-only class): succeeds exactly on non-empty all-digit strings. -/
def pyIntParse (s : String) : Option Int :=
  if !s.data.isEmpty && s.data.all Char.isDigit then
    some (digitsVal s.data : Int)
  else none

/-- Embedding of `float(value)` on the strings reachable here (captures of
the `float` class `digits [dot digits]`), as an exact rational. -/
def pyFloatParse (s : String) : Option Rat :=
  let a := s.data.takeWhile Char.isDigit
  let r := s.data.dropWhile Char.isDigit
  if a.isEmpty then none
  else
    match r with
    | [] => some (digitsVal a : Rat)
    | '.' :: fr =>
      if fr.all Char.isDigit then
        some ((digitsVal a : Rat) + (digitsVal fr : Rat) / ((10 : Rat) ^ fr.length))
      else none
    | _ => none

/-- Embedding of `value.lower()` (ASCII case folding, which is all the captures here
exercise). -/
def lowerString (s : String) : String :=
  String.mk (s.data.map Char.toLower)

/-- Embedding of `value.lower() in ("true", "1", "yes")` — the `bool` coercion of
`Route.match` (src/router.py line 67). -/
def pyBoolOf (s : String) : Bool :=
  let lo := lowerString s
  lo == "true" || lo == "1" || lo == "yes"

/-- A coerced path-parameter value: Python leaves captures as strings
unless the parameter's declared type triggers an `int`/`float`/`bool`
conversion. -/
inductive PVal where
  | s (v : String)
  | i (v : Int)
  | f (v : Rat)
  | b (v : Bool)
deriving DecidableEq, Repr

/-- The type-conversion loop of `Route.match` (src/router.py lines 58-70)
applied to one captured parameter: `int` and `float` parse the raw string
and silently keep the raw string on failure; `bool` tests membership of
the lowercased value in `("true", "1", "yes")`; every other declared type
(and every undeclared parameter) keeps the raw string. -/
def coerceParam (ptypes : List (String × String)) (name : String) (raw : String) : PVal :=
  match ptypes.lookup name with
  | none => .s raw
  | some ty =>
    if ty == "int" then
      match pyIntParse raw with
      | some n => .i n
      | none => .s raw
    else if ty == "float" then
      match pyFloatParse raw with
      | some q => .f q
      | none => .s raw
    else if ty == "bool" then .b (pyBoolOf raw)
    else .s raw

/-- Try to match the group `(name, cls)` against a non-empty prefix of `s`
of length at most `k`, longest first (greedy), continuing with `cont` on
the remaining characters — the backtracking step of the compiled regex. -/
def tryGrp (name : String) (cls : CClass) (s : List Char)
    (cont : List Char → Option (List (String × List Char))) :
    Nat → Option (List (String × List Char))
  | 0 => none
  | k + 1 =>
    if ccAccepts cls (s.take (k + 1)) then
      match cont (s.drop (k + 1)) with
      | some caps => some ((name, s.take (k + 1)) :: caps)
      | none => tryGrp name cls s cont k
    else tryGrp name cls s cont k

/-- Anchored match of a compiled token sequence against a character list,
returning the named captures in group order — the behaviour of
`self.pattern.match(path)` + `match.groupdict()` for the regexes produced
by `_compile_pattern`. -/
def tokMatch : List RTok → List Char → Option (List (String × List Char))
  | [], [] => some []
  | [], _ :: _ => none
  | .lit _ :: _, [] => none
  | .lit c :: ts, d :: rest => if c == d then tokMatch ts rest else none
  | .grp name cls :: ts, s => tryGrp name cls s (tokMatch ts) s.length

/-- Per-route configuration record (src/router.py `RouteConfig`). -/
structure RouteConfig where
  cache_ttl : Int := 0
  rate_limit : Int := 0
  background_tasks : Option (List String) := none
  validate : Bool := true
deriving DecidableEq, Repr

/-- One registered route (src/router.py `Route`): the original template,
accepted methods, an opaque handler of type `α`, the configuration, and
the derived compiled pattern (`tokens`) and parameter-type map
(`ptypes`). -/
structure Route (α : Type) where
  path : String
  methods : List String
  handler : α
  config : RouteConfig
  tokens : List RTok
  ptypes : List (String × String)
deriving DecidableEq

/-- Embedding of `Route.__init__`: store the raw fields and compile the pattern. -/
def mkRoute (path : String) (methods : List String) (handler : α)
    (config : RouteConfig) : Route α :=
  let (ts, ps) := compileTokens path
  ⟨path, methods, handler, config, ts, ps⟩

/-- Embedding of `Route.match` (src/router.py lines 47-72): reject a
method outside the route's method list, run the anchored pattern, and
type-convert the captures. -/
def Route.match (r : Route α) (path method : String) :
    Option (List (String × PVal)) :=
  if r.methods.contains method then
    match tokMatch r.tokens path.data with
    | none => none
    | some caps =>
      some (caps.map (fun nc => (nc.1, coerceParam r.ptypes nc.1 (String.mk nc.2))))
  else none

/-- Router state (src/router.py `Router`): the insertion-ordered route
list and the `_route_cache` dict made explicit. -/
structure Router (α : Type) where
  routes : List (Route α)
  cache : List ((String × String) × (α × List (String × PVal) × RouteConfig))
deriving DecidableEq

/-- The scan loop of `find_route` (src/router.py lines 94-99): first route
in insertion order whose `match` succeeds. -/
def firstMatch (routes : List (Route α)) (path method : String) :
    Option (α × List (String × PVal) × RouteConfig) :=
  match routes with
  | [] => none
  | r :: rest =>
    match r.match path method with
    | some ps => some (r.handler, ps, r.config)
    | none => firstMatch rest path method

/-- Embedding of `Router.find_route` (src/router.py lines 87-101).  The
returned `Router` is the post-call state: the source memoizes a positive
scan result in `_route_cache` and returns `None` on a miss without
touching the cache. -/
def Router.find_route (rt : Router α) (path method : String) :
    Option (α × List (String × PVal) × RouteConfig) × Router α :=
  match rt.cache.lookup (path, method) with
  | some res => (some res, rt)
  | none =>
    match firstMatch rt.routes path method with
    | some res => (some res, { rt with cache := ((path, method), res) :: rt.cache })
    | none => (none, rt)

/-- Embedding of `Router.add_route` (src/router.py lines 79-85): append
the freshly compiled route and clear the whole cache. -/
def Router.add_route (rt : Router α) (path : String) (methods : List String)
    (handler : α) (config : RouteConfig) : Router α :=
  { routes := rt.routes ++ [mkRoute path methods handler config], cache := [] }

/-!
Embedding of the dispatch pipeline of `src/app.py`.

Python exceptions are modelled by the `Failure` type; code that can
raise returns `Except Failure _`.  A `.error` escaping
`handleHttpRequest` models an exception propagating out of
`FlashAPI._handle_http_request` — the path on which no response is
emitted to the transport.
-/

/-- A JSON-serialisable content value (the payloads built by
`JSONResponse` in the dispatch code). -/
inductive JVal where
  | s (v : String)
  | i (v : Int)
  | b (v : Bool)
  | null
  | obj (fields : List (String × JVal))
  | arr (items : List JVal)

/-- Response object at the granularity the dispatcher observes
(src/response.py `Response.__init__`): content, status code, header
mapping, media type. -/
structure Resp where
  content : JVal
  status_code : Nat
  headers : List (String × String)
  media_type : String

/-- Embedding of `JSONResponse(content, status_code=...)`: media type
`application/json`, empty header dict. -/
def jsonResponse (content : JVal) (status : Nat) : Resp :=
  ⟨content, status, [], "application/json"⟩

/-- A raised Python exception as the dispatcher can observe it.

`httpExc` is *modelled from the spec*: `exceptions.py` (the repository
module defining `HTTPException`) is not among the provided sources; per
the spec it is the "well-known HTTP-level failure category that carries
its own status code and detail message", distinct from ordinary
application exception classes.  `userExc cls msg` is any other
application exception, carrying its class name and message.
`nameError` models the `NameError` raised when `_create_response`
references the unimported name `TextResponse`; `typeErrorNonClass`
models the `TypeError` Python raises for `isinstance(exc, k)` when the
discriminator `k` is an `int` status code rather than a type. -/
inductive Failure where
  | httpExc (status : Nat) (detail : String)
  | userExc (cls : String) (msg : String)
  | nameError (name : String)
  | typeErrorNonClass
deriving DecidableEq, Repr

/-- The class name `type(exc).__name__`, used for the exact-class test of
`_handle_exception`. -/
def Failure.className : Failure → String
  | .httpExc _ _ => "HTTPException"
  | .userExc cls _ => cls
  | .nameError _ => "NameError"
  | .typeErrorNonClass => "TypeError"

/-- Embedding of `str(exc)`: the HTTP failure renders its detail (modelled from the
spec), other failures their message. -/
def Failure.msg : Failure → String
  | .httpExc _ detail => detail
  | .userExc _ m => m
  | .nameError n => "name " ++ n ++ " is not defined"
  | .typeErrorNonClass => "isinstance() arg 2 must be a type"

/-- A handler return value, by the `isinstance` classes that
`_create_response` discriminates on: an already-built `Response`, a
`dict`, a `list`, a `str`, or anything else. -/
inductive HValue where
  | resp (r : Resp)
  | dict (fields : List (String × JVal))
  | list (items : List JVal)
  | str (v : String)
  | other (v : JVal)

/-- Embedding of `FlashAPI._create_response` (src/app.py lines 140-149).
A `Response` passes through; `dict`/`list` become a `JSONResponse`; a
`str` hits `return TextResponse(result)` — but `app.py` imports only
`Response` and `JSONResponse` from `.response`, so that line raises
`NameError` (the name `TextResponse` is not defined); anything else is
wrapped as `JSONResponse({"result": value})`. -/
def createResponse (result : HValue) : Except Failure Resp :=
  match result with
  | .resp r => .ok r
  | .dict fields => .ok (jsonResponse (.obj fields) 200)
  | .list items => .ok (jsonResponse (.arr items) 200)
  | .str _ => .error (.nameError "TextResponse")
  | .other v => .ok (jsonResponse (.obj [("result", v)]) 200)

/-- An exception-handler discriminator: a class (by name) or a numeric
status-code key, as stored in `FlashAPI.exception_handlers`. -/
inductive Disc where
  | cls (name : String)
  | code (n : Nat)

/-- Embedding of `FlashAPI._handle_exception` (src/app.py lines 151-164).
The source walks the handler dict in insertion order and evaluates
`isinstance(exc, exc_class) or exc_class == type(exc)`.  For a class
discriminator this is the class test; for a numeric discriminator
(`500`, `404`) the `isinstance` call itself raises `TypeError`
(`isinstance() arg 2 must be a type`), which propagates out of
`_handle_exception` — modelled by returning that failure as an error.
Only if the walk finishes without a match is the default 500 envelope
built. -/
def handleException (handlers : List (Disc × (Failure → Resp))) (e : Failure) :
    Except Failure Resp :=
  match handlers with
  | [] =>
    .ok (jsonResponse
      (.obj [("error", .s "Internal Server Error"), ("message", .s e.msg)]) 500)
  | (d, h) :: rest =>
    match d with
    | .cls c => if e.className == c then .ok (h e) else handleException rest e
    | .code _ => .error .typeErrorNonClass

/-- Embedding of `FlashAPI._handle_http_exception`: render an `HTTPException` as
`{"error": detail, "status_code": code}` with its own status.  (Only
ever invoked on the HTTP failure; the catch-all arm mirrors the
attribute defaults and is unreachable through `handleException`.) -/
def httpExceptionHandler : Failure → Resp
  | .httpExc status detail =>
    jsonResponse (.obj [("error", .s detail), ("status_code", .i status)]) status
  | e => jsonResponse (.obj [("error", .s e.msg)]) 500

/-- Embedding of `FlashAPI._handle_500_exception`. -/
def h500Handler : Failure → Resp :=
  fun _ => jsonResponse (.obj [("error", .s "Internal Server Error")]) 500

/-- Embedding of `FlashAPI._handle_404_exception`. -/
def h404Handler : Failure → Resp :=
  fun e => jsonResponse (.obj [("error", .s "Not Found"), ("message", .s e.msg)]) 404

/-- The handler registry installed by `FlashAPI._setup_default_handlers`
(src/app.py lines 39-43), in insertion order: `HTTPException`, `500`,
`404`. -/
def defaultHandlers : List (Disc × (Failure → Resp)) :=
  [(.cls "HTTPException", httpExceptionHandler),
   (.code 500, h500Handler),
   (.code 404, h404Handler)]

/-- Request object at the granularity the dispatcher observes
(src/request.py): path, method, the mutable `path_params` bag attached
during routing, and the open attribute bag middleware may write to
(e.g. `request.start_time`). -/
structure Req where
  path : String
  method : String
  path_params : List (String × PVal) := []
  attrs : List (String × String) := []

/-- One middleware object, with its optional duck-typed hooks
(`before_request` / `after_request`).  A hook may raise (`.error`),
return a replacement (`.ok (some _)`), or return a falsy value
(`.ok none`), in which case the `or request` / `or response` fallback
keeps the working value. -/
structure Mw where
  before : Option (Req → Except Failure (Option Req)) := none
  after : Option (Req → Resp → Except Failure (Option Resp)) := none

/-- The pre-middleware loop of `_handle_http_request` (src/app.py lines
86-89): each interceptor in registration order; a hook's `None` result
keeps the working request.  Returns the working request at the point the
loop stopped together with the exception, if one was raised (the
partially-updated request is what the rest of the function sees). -/
def runPre (ms : List Mw) (req : Req) : Req × Option Failure :=
  match ms with
  | [] => (req, none)
  | m :: rest =>
    match m.before with
    | none => runPre rest req
    | some f =>
      match f req with
      | .error e => (req, some e)
      | .ok r? => runPre rest (r?.getD req)

/-- Processing loop over an already-reversed middleware list (the body of
the `for middleware in reversed(self.middleware)` loop, src/app.py lines
116-119).  An exception from a post-hook propagates (the loop is outside
the `try`). -/
def runPostSeq (ms : List Mw) (req : Req) (resp : Resp) : Except Failure Resp :=
  match ms with
  | [] => .ok resp
  | m :: rest =>
    match m.after with
    | none => runPostSeq rest req resp
    | some g =>
      match g req resp with
      | .error e => .error e
      | .ok r? => runPostSeq rest req (r?.getD resp)

/-- The post-middleware phase: interceptors in reverse registration
order. -/
def runPost (ms : List Mw) (req : Req) (resp : Resp) : Except Failure Resp :=
  runPostSeq ms.reverse req resp

/-- A route handler as the dispatcher sees it: it receives the request
(carrying its bound path parameters) and either returns a value or
raises.  (The signature-driven binding of `_prepare_handler_args` is
abstracted into this application.) -/
def HandlerFn : Type := Req → Except Failure HValue

/-- Application state relevant to one dispatch: the router, the
registered middleware, and the exception-handler registry. -/
structure App where
  router : Router HandlerFn
  middleware : List Mw := []
  exception_handlers : List (Disc × (Failure → Resp)) := defaultHandlers

/-- The `try` block of `_handle_http_request` (src/app.py lines 85-114):
pre-middleware, route lookup (raising a 404 `HTTPException` on a miss),
handler invocation, result normalisation.  Returns the working request,
the block's outcome (`.error` = the exception reaching the `except`
clause), and the router state after the lookup. -/
def dispatchTry (app : App) (req0 : Req) :
    (Req × Except Failure Resp) × Router HandlerFn :=
  let (req1, preErr) := runPre app.middleware req0
  match preErr with
  | some e => ((req1, .error e), app.router)
  | none =>
    match app.router.find_route req1.path req1.method with
    | (none, router1) =>
      ((req1, .error (.httpExc 404 ("Route " ++ req1.path ++ " not found"))), router1)
    | (some (h, params, _cfg), router1) =>
      let req2 := { req1 with path_params := params }
      match h req2 with
      | .error e => ((req2, .error e), router1)
      | .ok result => ((req2, createResponse result), router1)

/-- Embedding of `FlashAPI._handle_http_request` (src/app.py lines
80-121).  The `try` outcome is resolved through `_handle_exception` when
it raised; the post-middleware loop then runs on the resulting response
(it is *outside* the `try`).  The function's value is `.ok resp` when
`await response(...)` emits `resp` to the transport, and `.error e` when
exception `e` propagates out of `_handle_http_request` with no response
emitted. -/
def handleHttpRequest (app : App) (req0 : Req) :
    Except Failure Resp × Router HandlerFn :=
  match dispatchTry app req0 with
  | ((reqF, tryRes), router1) =>
    let respE :=
      match tryRes with
      | .ok r => Except.ok r
      | .error exc => handleException app.exception_handlers exc
    match respE with
    | .error e => (.error e, router1)
    | .ok resp => (runPost app.middleware reqF resp, router1)

/-!  Router theorems (claims C4, C5, C7, C10). -/

/-- Every cache entry agrees with a fresh scan of the current routes:
the invariant the lookup cache maintains. -/
def cacheValid (r : Router α) : Prop :=
  ∀ e ∈ r.cache, firstMatch r.routes e.1.1 e.1.2 = some e.2

/-- The scan skips any leading block of routes that do not match. -/
theorem firstMatch_append_of_none {α : Type} (pre rest : List (Route α))
    (p m : String) (h : ∀ r' ∈ pre, r'.match p m = none) :
    firstMatch (pre ++ rest) p m = firstMatch rest p m := by
  induction pre with
  | nil => rfl
  | cons a l ih =>
    have ha : a.match p m = none := h a (List.mem_cons_self a l)
    rw [List.cons_append]
    show firstMatch (a :: (l ++ rest)) p m = firstMatch rest p m
    simp only [firstMatch, ha]
    exact ih (fun r' hr => h r' (List.mem_cons_of_mem a hr))

/-- A two-route table: first `/a/{x}` (untyped placeholder), then the
literal `/a/fixed` — the fixture of the ordering-sensitivity test. -/
def routerAB : Router Nat :=
  ⟨[mkRoute "/a/{x}" ["GET"] 1 {}, mkRoute "/a/fixed" ["GET"] 2 {}], []⟩

/-- A one-route table used for cache experiments. -/
def routerOne : Router Nat :=
  ⟨[mkRoute "/a" ["GET"] 0 {}], []⟩

/-- C5: on a cache miss, `find_route` scans the routes in insertion order
and returns the handler, parameters and config of the first route whose
`match` succeeds, whatever matches later in the table. -/
theorem find_route_first_match_wins {α : Type} (r : Router α) (p m : String)
    (pre post : List (Route α)) (rt : Route α) (params : List (String × PVal))
    (hcache : r.cache.lookup (p, m) = none)
    (hroutes : r.routes = pre ++ rt :: post)
    (hpre : ∀ r' ∈ pre, r'.match p m = none)
    (hmatch : rt.match p m = some params) :
    (r.find_route p m).1 = some (rt.handler, params, rt.config) := by
  unfold Router.find_route
  rw [hcache, hroutes, firstMatch_append_of_none pre (rt :: post) p m hpre]
  simp only [firstMatch, hmatch]

/-- C5 witness: with routes `/a/{x}` then `/a/fixed`, the query
`/a/fixed` returns the earlier untyped route's handler (handler 1 with
`x = "fixed"`), even though the later literal route also matches. -/
theorem find_route_first_match_wins_witness :
    (routerAB.find_route "/a/fixed" "GET").1
      = some (1, [("x", PVal.s "fixed")], {}) ∧
    (mkRoute "/a/fixed" ["GET"] (2 : Nat) {}).match "/a/fixed" "GET"
      = some [] := by
  refine ⟨?_, by decide⟩
  exact find_route_first_match_wins routerAB "/a/fixed" "GET"
    [] [mkRoute "/a/fixed" ["GET"] 2 {}] (mkRoute "/a/{x}" ["GET"] 1 {})
    [("x", PVal.s "fixed")] (by decide) rfl (by intro r' hr; cases hr)
    (by decide)

/-- C4 counterexample: a cold `find_route` that scans the whole table
without success does *not* memoize a negative result — the cache (and
the whole router state) is left unchanged, so there is no cached entry
for the missed key. -/
theorem find_route_miss_not_memoized_counterexample :
    (routerOne.find_route "/x" "GET").1 = none ∧
    ((routerOne.find_route "/x" "GET").2).cache.lookup ("/x", "GET") = none ∧
    (routerOne.find_route "/x" "GET").2 = routerOne := by decide

/-- C4 (amended): a cold miss returns `None` and leaves the router —
including its cache — unchanged; only positive results are memoized, so
a later identical call scans the table again. -/
theorem find_route_miss_leaves_router_unchanged {α : Type}
    (r : Router α) (p m : String)
    (hcache : r.cache.lookup (p, m) = none)
    (hscan : firstMatch r.routes p m = none) :
    r.find_route p m = (none, r) := by
  unfold Router.find_route
  rw [hcache, hscan]

/-- C4 witness: the amended statement at the concrete one-route table and
key `("/x", "GET")`. -/
theorem find_route_miss_leaves_router_unchanged_witness :
    routerOne.cache.lookup ("/x", "GET") = none ∧
    firstMatch routerOne.routes "/x" "GET" = none ∧
    routerOne.find_route "/x" "GET" = (none, routerOne) := by
  refine ⟨by decide, by decide, ?_⟩
  exact find_route_miss_leaves_router_unchanged routerOne "/x" "GET"
    (by decide) (by decide)

/-- C7: `add_route` appends the freshly compiled route and empties the
whole cache; consequently the next `find_route` (for any key) computes
by a fresh scan of the new table, and the cache-coherence invariant is
preserved both by `add_route` (trivially) and by `find_route`. -/
theorem add_route_invalidates_cache {α : Type} (r : Router α)
    (path : String) (methods : List String) (h : α) (cfg : RouteConfig)
    (p m : String) :
    (r.add_route path methods h cfg).routes
        = r.routes ++ [mkRoute path methods h cfg] ∧
    (r.add_route path methods h cfg).cache = [] ∧
    ((r.add_route path methods h cfg).find_route p m).1
        = firstMatch (r.add_route path methods h cfg).routes p m ∧
    cacheValid (r.add_route path methods h cfg) ∧
    (cacheValid r → cacheValid ((r.find_route p m).2)) := by
  refine ⟨rfl, rfl, ?_, ?_, ?_⟩
  · have hnil : (r.add_route path methods h cfg).cache.lookup (p, m)
        = (none : Option (α × List (String × PVal) × RouteConfig)) := rfl
    unfold Router.find_route
    rw [hnil]
    cases hf : firstMatch (r.add_route path methods h cfg).routes p m <;> rfl
  · intro e he
    cases he
  · intro hv
    unfold Router.find_route
    cases hc : r.cache.lookup (p, m) with
    | some res => exact hv
    | none =>
      cases hf : firstMatch r.routes p m with
      | none => exact hv
      | some v =>
        show cacheValid { r with cache := ((p, m), v) :: r.cache }
        intro e he
        rcases List.mem_cons.mp he with he | he
        · subst he; exact hf
        · exact hv e he

/-- C7 witness: the theorem applied at the one-route table (whose empty
cache is trivially coherent), route `/b`, key `("/a", "GET")`. -/
theorem add_route_invalidates_cache_witness :
    cacheValid routerOne ∧
    (routerOne.add_route "/b" ["GET"] 7 {}).cache = [] ∧
    cacheValid ((routerOne.find_route "/a" "GET").2) := by
  have hv : cacheValid routerOne := by intro e he; cases he
  exact ⟨hv,
    (add_route_invalidates_cache routerOne "/b" ["GET"] 7 {} "/a" "GET").2.1,
    (add_route_invalidates_cache routerOne "/b" ["GET"] 7 {} "/a" "GET").2.2.2.2 hv⟩

/-- C10 (frame): `find_route` never changes the routes sequence; it
either leaves the cache exactly as it was, or — only on a successful
cold lookup — adds the single entry keyed by its own `(path, method)`
argument, mapping to the scan's result. -/
theorem find_route_frame {α : Type} (r : Router α) (p m : String) :
    ((r.find_route p m).2).routes = r.routes ∧
    (((r.find_route p m).2).cache = r.cache ∨
      (r.cache.lookup (p, m) = none ∧
        ∃ v, firstMatch r.routes p m = some v ∧
          (r.find_route p m).1 = some v ∧
          ((r.find_route p m).2).cache = ((p, m), v) :: r.cache)) := by
  unfold Router.find_route
  cases hc : r.cache.lookup (p, m) with
  | some res => exact ⟨rfl, Or.inl rfl⟩
  | none =>
    cases hf : firstMatch r.routes p m with
    | none => exact ⟨rfl, Or.inl rfl⟩
    | some v => exact ⟨rfl, Or.inr ⟨rfl, v, rfl, rfl, rfl⟩⟩

/-!  Pattern-matcher theorems (claims C8, C9). -/

/-- If a final group would leave characters behind, the match fails: with
the empty continuation, every split shorter than the whole remainder is
rejected. -/
theorem tryGrp_short_none (n : String) (cls : CClass) (s : List Char) :
    ∀ k, k < s.length → tryGrp n cls s (tokMatch []) k = none := by
  intro k
  induction k with
  | zero => intro _; rfl
  | succ k ih =>
    intro hk
    have hcont : tokMatch [] (s.drop (k + 1)) = none := by
      cases hd : s.drop (k + 1) with
      | nil =>
        have hlen : (s.drop (k + 1)).length = s.length - (k + 1) :=
          List.length_drop _ _
        rw [hd] at hlen
        simp at hlen
        omega
      | cons a l => rfl
    simp only [tryGrp, hcont]
    by_cases hacc : ccAccepts cls (s.take (k + 1)) = true
    · rw [if_pos hacc]
      exact ih (Nat.lt_of_succ_lt hk)
    · rw [if_neg hacc]
      exact ih (Nat.lt_of_succ_lt hk)

/-- A pattern ending in a single group matches a remainder exactly when
the group's character class accepts the whole (non-empty) remainder, and
then captures it verbatim. -/
theorem tokMatch_grp_only (n : String) (cls : CClass) (s : List Char) :
    tokMatch [.grp n cls] s
      = if ccAccepts cls s then some [(n, s)] else none := by
  cases s with
  | nil =>
    have h0 : ccAccepts cls [] = false := by cases cls <;> rfl
    rw [h0]
    rfl
  | cons a l =>
    show tryGrp n cls (a :: l) (tokMatch []) (a :: l).length = _
    simp only [List.length_cons, tryGrp, List.take_succ_cons, List.drop_succ_cons,
      List.take_length, List.drop_length]
    cases hacc : ccAccepts cls (a :: l) with
    | true => simp [hacc, tokMatch]
    | false =>
      simp only [hacc, Bool.false_eq_true, if_false]
      exact tryGrp_short_none n cls (a :: l) l.length (Nat.lt_succ_self _)

/-- The route compiled from `/items/{id:int}` (claim C8's fixture). -/
def routeItems : Route Nat := mkRoute "/items/{id:int}" ["GET"] 0 {}

/-- The route compiled from `/f/{flag:bool}` (claim C9's fixture). -/
def routeFlag : Route Nat := mkRoute "/f/{flag:bool}" ["GET"] 0 {}

/-- C8: the `{id:int}` segment matches exactly the non-empty all-digit
remainders, and a match coerces the capture to an integer: `/items/42`
gives `id = 42` as an integer, `/items/abc` does not match, and in
general `/items/<s>` matches iff `s` is one-or-more digits, capturing
its numeric value. -/
theorem int_placeholder_matches_digits :
    routeItems.match "/items/42" "GET" = some [("id", PVal.i 42)] ∧
    routeItems.match "/items/abc" "GET" = none ∧
    ∀ s : String,
      routeItems.match ("/items/" ++ s) "GET"
        = if !s.data.isEmpty && s.data.all Char.isDigit then
            some [("id", PVal.i (digitsVal s.data))]
          else none := by
  refine ⟨by decide, by decide, ?_⟩
  intro s
  obtain ⟨l⟩ := s
  cases hacc : ccAccepts CClass.digits l with
  | true =>
    have hTok : tokMatch routeItems.tokens ("/items/" ++ String.mk l).data
        = some [("id", l)] := by
      have h2 := tokMatch_grp_only "id" CClass.digits l
      rw [hacc] at h2
      simp only [if_true] at h2
      exact h2
    have hval : (!(String.mk l).data.isEmpty
        && (String.mk l).data.all Char.isDigit) = true := hacc
    have hparse : pyIntParse (String.mk l) = some (digitsVal l : Int) := by
      unfold pyIntParse
      rw [hval]
      rfl
    unfold Route.match
    rw [hTok, hval]
    show some [("id", coerceParam routeItems.ptypes "id" (String.mk l))]
      = some [("id", PVal.i (digitsVal l))]
    have hco : coerceParam routeItems.ptypes "id" (String.mk l)
        = PVal.i (digitsVal l) := by
      show (match pyIntParse (String.mk l) with
            | some n => PVal.i n
            | none => PVal.s (String.mk l)) = PVal.i (digitsVal l)
      rw [hparse]
    rw [hco]
  | false =>
    have hTok : tokMatch routeItems.tokens ("/items/" ++ String.mk l).data
        = none := by
      have h2 := tokMatch_grp_only "id" CClass.digits l
      rw [hacc] at h2
      simp only [Bool.false_eq_true, if_false] at h2
      exact h2
    have hval : (!(String.mk l).data.isEmpty
        && (String.mk l).data.all Char.isDigit) = false := hacc
    unfold Route.match
    rw [hTok, hval]
    rfl

/-- C9: a `{flag:bool}` segment matches any non-empty slash-free
remainder (the class the source assigns to unlisted type tags), never
raises, and coerces the capture with `value.lower() in ("true", "1", "yes")`: `"True"`, `"1"`, `"yes"` give `true`; `"0"`, `"no"`, `"maybe"`
give `false`; in general the capture becomes the boolean
`lower(s) ∈ {true, 1, yes}`. -/
theorem bool_placeholder_coercion :
    routeFlag.match "/f/True" "GET" = some [("flag", PVal.b true)] ∧
    routeFlag.match "/f/1" "GET" = some [("flag", PVal.b true)] ∧
    routeFlag.match "/f/yes" "GET" = some [("flag", PVal.b true)] ∧
    routeFlag.match "/f/0" "GET" = some [("flag", PVal.b false)] ∧
    routeFlag.match "/f/no" "GET" = some [("flag", PVal.b false)] ∧
    routeFlag.match "/f/maybe" "GET" = some [("flag", PVal.b false)] ∧
    ∀ s : String,
      routeFlag.match ("/f/" ++ s) "GET"
        = if !s.data.isEmpty && s.data.all (fun c => c != '/') then
            some [("flag", PVal.b (pyBoolOf s))]
          else none := by
  refine ⟨by decide, by decide, by decide, by decide, by decide, by decide, ?_⟩
  intro s
  obtain ⟨l⟩ := s
  cases hacc : ccAccepts CClass.nonSlash l with
  | true =>
    have hTok : tokMatch routeFlag.tokens ("/f/" ++ String.mk l).data
        = some [("flag", l)] := by
      have h2 := tokMatch_grp_only "flag" CClass.nonSlash l
      rw [hacc] at h2
      simp only [if_true] at h2
      exact h2
    have hval : (!(String.mk l).data.isEmpty
        && (String.mk l).data.all (fun c => c != '/')) = true := hacc
    unfold Route.match
    rw [hTok, hval]
    rfl
  | false =>
    have hTok : tokMatch routeFlag.tokens ("/f/" ++ String.mk l).data
        = none := by
      have h2 := tokMatch_grp_only "flag" CClass.nonSlash l
      rw [hacc] at h2
      simp only [Bool.false_eq_true, if_false] at h2
      exact h2
    have hval : (!(String.mk l).data.isEmpty
        && (String.mk l).data.all (fun c => c != '/')) = false := hacc
    unfold Route.match
    rw [hTok, hval]
    rfl

/-!  Middleware and dispatcher theorems (claims C1, C2, C3, C6). -/

/-- Order-recording interceptor A: its pre-hook appends `("pre", "A")` to
the request's attribute bag, its post-hook appends `("post", "A")` to the
response headers. -/
def mwA : Mw :=
  { before := some fun r => .ok (some { r with attrs := r.attrs ++ [("pre", "A")] }),
    after := some fun _ s => .ok (some { s with headers := s.headers ++ [("post", "A")] }) }

/-- Order-recording interceptor B. -/
def mwB : Mw :=
  { before := some fun r => .ok (some { r with attrs := r.attrs ++ [("pre", "B")] }),
    after := some fun _ s => .ok (some { s with headers := s.headers ++ [("post", "B")] }) }

/-- A blank request and response for the order-recording fixture. -/
def reqZ : Req := { path := "/", method := "GET" }

def respZ : Resp := jsonResponse .null 200

/-- C6: the pre-phase steps through the middleware in registration order
and the post-phase in reverse registration order, an absent hook or a
hook yielding nothing leaving the working value unchanged and a returned
value replacing it; with the order-recording interceptors `[A, B]` the
pre-phase records `A` then `B` and the post-phase `B` then `A`, each hook
firing exactly once. -/
theorem middleware_two_phase_order :
    (∀ (ms : List Mw) (a : Option (Req → Resp → Except Failure (Option Resp)))
        (req : Req), runPre (⟨none, a⟩ :: ms) req = runPre ms req) ∧
    (∀ (ms : List Mw) (a : Option (Req → Resp → Except Failure (Option Resp)))
        (req : Req),
        runPre (⟨some fun _ => .ok none, a⟩ :: ms) req = runPre ms req) ∧
    (∀ (ms : List Mw) (a : Option (Req → Resp → Except Failure (Option Resp)))
        (g : Req → Req) (req : Req),
        runPre (⟨some fun r => .ok (some (g r)), a⟩ :: ms) req
          = runPre ms (g req)) ∧
    (∀ (ms : List Mw) (b : Option (Req → Except Failure (Option Req)))
        (req : Req) (resp : Resp),
        runPost (ms ++ [⟨b, none⟩]) req resp = runPost ms req resp) ∧
    (∀ (ms : List Mw) (b : Option (Req → Except Failure (Option Req)))
        (req : Req) (resp : Resp),
        runPost (ms ++ [⟨b, some fun _ _ => .ok none⟩]) req resp
          = runPost ms req resp) ∧
    (∀ (ms : List Mw) (b : Option (Req → Except Failure (Option Req)))
        (k : Req → Resp → Resp) (req : Req) (resp : Resp),
        runPost (ms ++ [⟨b, some fun r s => .ok (some (k r s))⟩]) req resp
          = runPost ms req (k req resp)) ∧
    (runPre [mwA, mwB] reqZ).1.attrs = [("pre", "A"), ("pre", "B")] ∧
    runPost [mwA, mwB] reqZ respZ
      = .ok { respZ with headers := [("post", "B"), ("post", "A")] } := by
  refine ⟨fun ms a req => rfl, fun ms a req => rfl, fun ms a g req => rfl,
    ?_, ?_, ?_, rfl, rfl⟩
  · intro ms b req resp
    unfold runPost
    rw [List.reverse_append]
    rfl
  · intro ms b req resp
    unfold runPost
    rw [List.reverse_append]
    rfl
  · intro ms b k req resp
    unfold runPost
    rw [List.reverse_append]
    rfl

/-- An application with the default exception handlers and one route
whose handler raises an unclassified `ValueError`. -/
def appBoom : App :=
  { router := ⟨[mkRoute "/boom" ["GET"]
      (fun _ => .error (.userExc "ValueError" "boom")) {}], []⟩ }

/-- An application with the default exception handlers and one route
whose handler raises `HTTPException(403, "forbidden")`. -/
def appHttp : App :=
  { router := ⟨[mkRoute "/f" ["GET"]
      (fun _ => .error (.httpExc 403 "forbidden")) {}], []⟩ }

/-- C1: the dispatcher does *not* always produce a response.  A handler
raising an unclassified `ValueError` reaches `_handle_exception`, whose
walk over the default registry evaluates `isinstance(exc, 500)` — a
`TypeError`, since `500` is not a type — and that `TypeError` escapes
`_handle_http_request` unresolved, so no response is emitted.  (The
HTTP-failure path, by contrast, does resolve to a single response.) -/
theorem dispatcher_escapes_on_unclassified_failure :
    (handleHttpRequest appBoom { path := "/boom", method := "GET" }).1
        = .error .typeErrorNonClass ∧
    (handleHttpRequest appHttp { path := "/f", method := "GET" }).1
        = .ok (jsonResponse
            (.obj [("error", .s "forbidden"), ("status_code", .i 403)]) 403) :=
  ⟨rfl, rfl⟩

/-- C2: resolving an unclassified failure against the default registry
does not return the generic 500 envelope — it raises `TypeError` at the
numeric `500` discriminator (`isinstance(exc, 500)`), so the post-
middleware phase is never reached on this path.  The generic envelope is
only produced when the walk passes no numeric discriminator, as the
second conjunct shows on a registry holding only the class entry. -/
theorem resolver_raises_on_unclassified_failure :
    handleException defaultHandlers (.userExc "ValueError" "boom")
        = .error .typeErrorNonClass ∧
    handleException [(.cls "HTTPException", httpExceptionHandler)]
        (.userExc "ValueError" "boom")
        = .ok (jsonResponse
            (.obj [("error", .s "Internal Server Error"),
                   ("message", .s "boom")]) 500) :=
  ⟨rfl, rfl⟩

/-- C3: result normalisation passes a `Response` through, wraps `dict`
and `list` as JSON, and wraps anything else as `{"result": value}` — but
the `str` branch does not produce a text response: it references
`TextResponse`, which `app.py` never imports, and so raises `NameError`
for every string-valued handler result. -/
theorem create_response_policy :
    (∀ r : Resp, createResponse (.resp r) = .ok r) ∧
    (∀ fields, createResponse (.dict fields)
        = .ok (jsonResponse (.obj fields) 200)) ∧
    (∀ items, createResponse (.list items)
        = .ok (jsonResponse (.arr items) 200)) ∧
    (∀ v, createResponse (.other v)
        = .ok (jsonResponse (.obj [("result", v)]) 200)) ∧
    (∀ s, createResponse (.str s) = .error (.nameError "TextResponse")) :=
  ⟨fun _ => rfl, fun _ => rfl, fun _ => rfl, fun _ => rfl, fun _ => rfl⟩

